import Mathlib

/-!
Shallow embedding of the command/queue emulation core of the eNVMe PCI
endpoint function driver (`pci-epf-nvme.c`), together with theorems checking
the specification claims against it.  Pure data manipulations of the C code
are translated into executable Lean functions; host-controlled inputs
(doorbell values, host memory contents, DMA completion behaviour, mapping
window grants) are passed as explicit oracle parameters.  Machine integers
are modelled as `Nat` with explicit masking where the C semantics depends on
it; the `DNR` bit, OR-ed uniformly onto every error status, is not modelled
separately.
-/

namespace EpfNvme

/-- Sizes and constants used by the driver (values from the kernel headers). -/
def SZ_4K : Nat := 4096

/-- Constant 128 KiB, `SZ_128K` in the source. -/
def SZ_128K : Nat := 131072

/-- Constant `NVME_CTRL_PAGE_SHIFT` (12, i.e. 4 KiB controller pages). -/
def NVME_CTRL_PAGE_SHIFT : Nat := 12

/-- Constant `NVME_CTRL_PAGE_SIZE` (4096). -/
def NVME_CTRL_PAGE_SIZE : Nat := 4096

/-- Queue flag `PCI_EPF_NVME_QUEUE_IS_SQ` (1 << 0). -/
def PCI_EPF_NVME_QUEUE_IS_SQ : Nat := 1

/-- Queue flag `PCI_EPF_NVME_QUEUE_LIVE` (1 << 1). -/
def PCI_EPF_NVME_QUEUE_LIVE : Nat := 2

/-- NVMe create-queue flag `NVME_QUEUE_PHYS_CONTIG` (1 << 0). -/
def NVME_QUEUE_PHYS_CONTIG : Nat := 1

/-- NVMe create-CQ flag `NVME_CQ_IRQ_ENABLED` (1 << 1).  Note that its
numeric value coincides with `PCI_EPF_NVME_QUEUE_LIVE`. -/
def NVME_CQ_IRQ_ENABLED : Nat := 2

/-- Controller configuration bit `NVME_CC_ENABLE` (1 << 0). -/
def NVME_CC_ENABLE : Nat := 1

/-- Controller configuration bit `NVME_CC_SHN_NORMAL` (1 << 14). -/
def NVME_CC_SHN_NORMAL : Nat := 16384

/-- Controller status bit `NVME_CSTS_RDY` (1 << 0). -/
def NVME_CSTS_RDY : Nat := 1

/-- Controller status bit `NVME_CSTS_SHST_CMPLT` (2 << 2). -/
def NVME_CSTS_SHST_CMPLT : Nat := 8

/-- Register offset `NVME_REG_DBS` (0x1000), start of the doorbell area. -/
def NVME_REG_DBS : Nat := 4096

/-- I/O opcode `nvme_cmd_write` (0x01). -/
def nvme_cmd_write : Nat := 1

/-- I/O opcode `nvme_cmd_read` (0x02). -/
def nvme_cmd_read : Nat := 2

/-- Command flag mask `NVME_CMD_SGL_ALL` (`NVME_CMD_SGL_METABUF |
NVME_CMD_SGL_METASEG`, i.e. 0xC0). -/
def NVME_CMD_SGL_ALL : Nat := 192

/-- Bitwise complement within a 32-bit register, as the C `~mask` on `u32`. -/
def u32_not (m : Nat) : Nat := 4294967295 ^^^ m

/-- NVMe completion status codes from `linux/nvme.h` used by the driver.
Distinct C constants map to distinct constructors; the numeric values
(0x0, 0x1, 0x2, 0x4, 0x6, 0xF, 0x10, 0x13, 0x100, 0x101, 0x102, 0x108,
0x10C) are not needed by any claim, only their distinctness. -/
inductive SC where
  | NVME_SC_SUCCESS
  | NVME_SC_INVALID_OPCODE
  | NVME_SC_INVALID_FIELD
  | NVME_SC_DATA_XFER_ERROR
  | NVME_SC_INTERNAL
  | NVME_SC_INVALID_NS
  | NVME_SC_CMD_SEQ_ERROR
  | NVME_SC_PRP_INVALID_OFFSET
  | NVME_SC_CQ_INVALID
  | NVME_SC_QID_INVALID
  | NVME_SC_QUEUE_SIZE
  | NVME_SC_INVALID_VECTOR
  | NVME_SC_INVALID_QUEUE
  deriving DecidableEq, Repr

/-- Out-of-bounds marker: a C array access past the end of the `sq`/`cq`
arrays (undefined behaviour in the source) is made explicit in the model. -/
inductive Oob where
  | oobAccess
  deriving DecidableEq, Repr

/-- Checked array read: `l[i]` in C, with out-of-range accesses surfaced. -/
def arrGet {α : Type} (l : List α) (i : Nat) : Except Oob α :=
  match l[i]? with
  | some q => .ok q
  | none => .error .oobAccess

/-- One entry of `struct pci_epf_nvme_queue`.  Fields not used by any claim
(work structures, locks, pending list, mapping) are omitted; `u16` fields are
kept as `Nat`, with masking applied where the source can truncate. -/
structure Queue where
  qflags : Nat := 0
  ref : Nat := 0
  pci_addr : Nat := 0
  pci_size : Nat := 0
  qid : Nat := 0
  cqid : Nat := 0
  size : Nat := 0
  depth : Nat := 0
  flags : Nat := 0
  vector : Nat := 0
  head : Nat := 0
  tail : Nat := 0
  phase : Nat := 0
  db : Nat := 0
  qes : Nat := 0
  deriving DecidableEq, Repr

/-- The controller-level state of `struct pci_epf_nvme_ctrl` (plus the
`ctrl_enabled` flag of `struct pci_epf_nvme`) that the claims touch. -/
structure Ctrl where
  cc : Nat := 0
  csts : Nat := 0
  adm_sqes : Nat := 64
  adm_cqes : Nat := 16
  io_sqes : Nat := 64
  io_cqes : Nat := 16
  nr_queues : Nat := 0
  sq : List Queue := []
  cq : List Queue := []
  ctrl_enabled : Bool := false
  deriving DecidableEq, Repr

/-- Result of `pci_epf_nvme_ctrl_ready`. -/
def pci_epf_nvme_ctrl_ready (st : Ctrl) : Bool :=
  st.ctrl_enabled && (st.cc &&& NVME_CC_ENABLE != 0) &&
    (st.csts &&& NVME_CSTS_RDY != 0)

/-- Outcome of one `pci_epf_nvme_queue_response` call.  `freed` is the
controller-not-ready / CQ-not-live path (command freed, function returns
true); `cq_full` is the ring-full path (function returns false, command left
alive); `posted` is the successful posting path, recording whether the
command was handed to the evil work queue instead of being freed. -/
inductive QROutcome where
  | freed
  | cq_full
  | posted (evil_work_queued : Bool)
  deriving DecidableEq, Repr

/-- Return value of the `pci_epf_nvme_queue_response` model. -/
structure QRResult where
  cq : Queue
  outcome : QROutcome
  deriving DecidableEq, Repr

/-- Model of `pci_epf_nvme_queue_response`.  `ready` is the value of
`pci_epf_nvme_ctrl_ready` at call time, `db_head` the `u32` value read from
the CQ head doorbell register (host controlled; truncated to `u16` on
assignment to `cq->head`), `sqid`/`opcode` come from the command.  The MMIO
write of the completion entry into host memory is not modelled (it writes no
endpoint state); the ring-full check is the literal `cq->head == cq->tail + 1`
of the source, without a modulo. -/
def pci_epf_nvme_queue_response (ready : Bool) (cq : Queue) (db_head : Nat)
    (sqid opcode : Nat) : QRResult :=
  if !(ready && (cq.qflags &&& PCI_EPF_NVME_QUEUE_LIVE != 0)) then
    { cq := cq, outcome := .freed }
  else
    let cq1 : Queue := { cq with head := db_head % 65536 }
    if cq1.head = cq1.tail + 1 then
      { cq := cq1, outcome := .cq_full }
    else
      let tail1 := cq1.tail + 1
      let tp : Nat × Nat :=
        if tail1 ≥ cq1.depth then (0, cq1.phase ^^^ 1) else (tail1, cq1.phase)
      let cq2 : Queue := { cq1 with tail := tp.1, phase := tp.2 }
      { cq := cq2, outcome := .posted (sqid != 0 && opcode == nvme_cmd_write) }

/-- Concrete completion queue for the ring-full wraparound scenario: depth 4
(queue size 3), tail at the last slot, three un-drained entries, host head
doorbell at 0, so the ring is full under the modulo-depth test. -/
def wrapFullCq : Queue :=
  { qflags := PCI_EPF_NVME_QUEUE_LIVE, depth := 4, head := 3, tail := 3,
    phase := 1 }

/-- The part of `struct pci_epf_nvme_cmd` that completion posting reads. -/
structure Cmd where
  command_id : Nat := 0
  sqid : Nat := 0
  opcode : Nat := 0
  deriving DecidableEq, Repr

/-- Result of one pass of the posting loop of `pci_epf_nvme_cq_work` over the
spliced-off local batch list.  `posted` are the commands whose completion
entry was written (in posting order); `dropped` are commands freed without a
completion (controller not ready / CQ dead); `evil_queued` are the posted
commands handed to the evil work queue; `remaining` is what is still on the
local list when the loop stops; `lost` is the command that was
`list_del_init`-ed off the list and then had its posting attempt return
false — the source neither re-inserts nor frees it. -/
structure CqBatchResult where
  cq : Queue
  posted : List Cmd
  dropped : List Cmd
  evil_queued : List Cmd
  remaining : List Cmd
  lost : Option Cmd
  deriving DecidableEq, Repr

/-- Model of the inner posting loop of `pci_epf_nvme_cq_work`: commands are
taken off the front of the batch list one by one (`list_del_init` before the
posting attempt) and handed to `pci_epf_nvme_queue_response`; a false return
(ring full) breaks the loop.  `ready` and `db_head` are fixed for the pass. -/
def pci_epf_nvme_cq_work_post (ready : Bool) (db_head : Nat) :
    Queue → List Cmd → CqBatchResult
  | cq, [] =>
    { cq := cq, posted := [], dropped := [], evil_queued := [],
      remaining := [], lost := none }
  | cq, c :: rest =>
    let r := pci_epf_nvme_queue_response ready cq db_head c.sqid c.opcode
    match r.outcome with
    | .cq_full =>
      { cq := r.cq, posted := [], dropped := [], evil_queued := [],
        remaining := rest, lost := some c }
    | .freed =>
      let k := pci_epf_nvme_cq_work_post ready db_head r.cq rest
      { k with dropped := c :: k.dropped }
    | .posted ev =>
      let k := pci_epf_nvme_cq_work_post ready db_head r.cq rest
      if ev then { k with posted := c :: k.posted, evil_queued := c :: k.evil_queued }
      else { k with posted := c :: k.posted }

/-- Model of `pci_epf_nvme_create_cq`.  The reference count is incremented
first; only the first binding initialises the queue.  The doorbell register
write of 0 and the delayed-work initialisation are external effects not
modelled.  Accessing `ctrl->cq[qid]` out of range is surfaced as `Oob`. -/
def pci_epf_nvme_create_cq (st : Ctrl) (qid flags size vector pci_addr : Nat) :
    Except Oob Ctrl := do
  let cq0 ← arrGet st.cq qid
  let cq1 : Queue := { cq0 with ref := cq0.ref + 1 }
  if cq1.ref > 1 then
    return { st with cq := st.cq.set qid cq1 }
  let qes := if qid = 0 then st.adm_cqes else st.io_cqes
  let cq2 : Queue :=
    { cq1 with
      pci_addr := pci_addr, qid := qid, cqid := qid, size := size,
      flags := flags, depth := size + 1, vector := vector,
      head := 0, tail := 0, phase := 1,
      db := NVME_REG_DBS + ((qid * 2) + 1) * 4,
      qes := qes, pci_size := qes * (size + 1),
      qflags := PCI_EPF_NVME_QUEUE_LIVE }
  return { st with cq := st.cq.set qid cq2 }

/-- Model of `pci_epf_nvme_delete_queue`: clears the LIVE flag.  Flushing the
work queue and draining (freeing) the attached command list are external
effects with no bearing on the modelled state. -/
def pci_epf_nvme_delete_queue (q : Queue) : Queue :=
  { q with qflags := q.qflags &&& u32_not PCI_EPF_NVME_QUEUE_LIVE }

/-- Model of `pci_epf_nvme_create_sq`.  `alloc_wq_ok` stands for the outcome
of `alloc_workqueue`; on failure the source zeroes the (already modified)
queue slot and returns -ENOMEM, modelled by the `false` result component. -/
def pci_epf_nvme_create_sq (st : Ctrl) (qid cqid flags size pci_addr : Nat)
    (alloc_wq_ok : Bool) : Except Oob (Bool × Ctrl) := do
  let sq0 ← arrGet st.sq qid
  let qes := if qid = 0 then st.adm_sqes else st.io_sqes
  let sq1 : Queue :=
    { sq0 with
      qflags := PCI_EPF_NVME_QUEUE_IS_SQ, pci_addr := pci_addr, ref := 1,
      qid := qid, cqid := cqid, size := size, flags := flags,
      depth := size + 1, head := 0, tail := 0, phase := 0,
      db := NVME_REG_DBS + qid * 2 * 4,
      qes := qes, pci_size := qes * (size + 1) }
  if !alloc_wq_ok then
    return (false, { st with sq := st.sq.set qid {} })
  let cq ← arrGet st.cq cqid
  let st1 : Ctrl :=
    { st with
      sq := st.sq.set qid { sq1 with qflags := sq1.qflags ||| PCI_EPF_NVME_QUEUE_LIVE },
      cq := st.cq.set cqid { cq with ref := cq.ref + 1 } }
  return (true, st1)

/-- Model of `pci_epf_nvme_delete_sq`: decrements the SQ reference, and when
it reaches zero kills the queue and drops the bound CQ's reference. -/
def pci_epf_nvme_delete_sq (st : Ctrl) (qid : Nat) : Except Oob Ctrl := do
  let sq ← arrGet st.sq qid
  if sq.ref = 0 then
    return st
  let sq1 : Queue := { sq with ref := sq.ref - 1 }
  if sq1.ref ≠ 0 then
    return { st with sq := st.sq.set qid sq1 }
  let sq2 := pci_epf_nvme_delete_queue sq1
  let st1 : Ctrl := { st with sq := st.sq.set qid sq2 }
  let cq ← arrGet st1.cq sq2.cqid
  if cq.ref ≠ 0 then
    return { st1 with cq := st1.cq.set sq2.cqid { cq with ref := cq.ref - 1 } }
  return st1

/-- Model of `pci_epf_nvme_delete_cq`: decrements the CQ reference, and when
it reaches zero kills the queue. -/
def pci_epf_nvme_delete_cq (st : Ctrl) (qid : Nat) : Except Oob Ctrl := do
  let cq ← arrGet st.cq qid
  if cq.ref < 1 then
    return st
  let cq1 : Queue := { cq with ref := cq.ref - 1 }
  if cq1.ref ≠ 0 then
    return { st with cq := st.cq.set qid cq1 }
  return { st with cq := st.cq.set qid (pci_epf_nvme_delete_queue cq1) }

/-- Model of `pci_epf_nvme_process_create_cq`.  `mqes` is
`NVME_CAP_MQES(ctrl->cap)` and `nr_vectors` the function's vector count. -/
def pci_epf_nvme_process_create_cq (st : Ctrl) (nr_vectors mqes : Nat)
    (cqid cq_flags qsize vector prp1 : Nat) : Except Oob (SC × Ctrl) := do
  if cqid ≥ st.nr_queues then
    return (.NVME_SC_QID_INVALID, st)
  let cq ← arrGet st.cq cqid
  if cq.ref ≠ 0 then
    return (.NVME_SC_QID_INVALID, st)
  if cq_flags &&& NVME_QUEUE_PHYS_CONTIG = 0 then
    return (.NVME_SC_INVALID_QUEUE, st)
  if qsize = 0 ∨ qsize > mqes then
    return (.NVME_SC_QUEUE_SIZE, st)
  if vector ≥ nr_vectors then
    return (.NVME_SC_INVALID_VECTOR, st)
  let st1 ← pci_epf_nvme_create_cq st cqid cq_flags qsize vector prp1
  return (.NVME_SC_SUCCESS, st1)

/-- Model of `pci_epf_nvme_process_create_sq`.  The source's queue-id range
check is the literal `sqid > ctrl->nr_queues` (not `≥`), after which
`ctrl->sq[sqid].ref` is read; for `sqid = nr_queues` that read is one past
the end of the array and surfaces as `Oob` here.  The `cqid` used to index
`ctrl->cq` is likewise only checked against zero. -/
def pci_epf_nvme_process_create_sq (st : Ctrl) (mqes : Nat)
    (alloc_wq_ok : Bool) (sqid cqid sq_flags qsize prp1 : Nat) :
    Except Oob (SC × Ctrl) := do
  if sqid = 0 ∨ sqid > st.nr_queues then
    return (.NVME_SC_QID_INVALID, st)
  let sq ← arrGet st.sq sqid
  if sq.ref ≠ 0 then
    return (.NVME_SC_QID_INVALID, st)
  if cqid = 0 then
    return (.NVME_SC_CQ_INVALID, st)
  let cq ← arrGet st.cq cqid
  if cq.ref = 0 then
    return (.NVME_SC_CQ_INVALID, st)
  if sq_flags &&& NVME_QUEUE_PHYS_CONTIG = 0 then
    return (.NVME_SC_INVALID_QUEUE, st)
  if qsize = 0 ∨ qsize > mqes then
    return (.NVME_SC_QUEUE_SIZE, st)
  match ← pci_epf_nvme_create_sq st sqid cqid sq_flags qsize prp1 alloc_wq_ok with
  | (false, st1) => return (.NVME_SC_INTERNAL, st1)
  | (true, st1) => return (.NVME_SC_SUCCESS, st1)

/-- One queue-deletion call recorded while tearing the controller down. -/
inductive DelEvent where
  | delSq (qid : Nat)
  | delCq (qid : Nat)
  deriving DecidableEq, Repr

/-- Run `pci_epf_nvme_delete_sq` over a list of queue ids, recording the
calls in order. -/
def deleteSqList (st : Ctrl) : List Nat → Except Oob (Ctrl × List DelEvent)
  | [] => .ok (st, [])
  | q :: rest => do
    let st1 ← pci_epf_nvme_delete_sq st q
    let (st2, evs) ← deleteSqList st1 rest
    return (st2, .delSq q :: evs)

/-- Run `pci_epf_nvme_delete_cq` over a list of queue ids, recording the
calls in order. -/
def deleteCqList (st : Ctrl) : List Nat → Except Oob (Ctrl × List DelEvent)
  | [] => .ok (st, [])
  | q :: rest => do
    let st1 ← pci_epf_nvme_delete_cq st q
    let (st2, evs) ← deleteCqList st1 rest
    return (st2, .delCq q :: evs)

/-- Queue ids swept by the `for (qid = 1; qid < ctrl->nr_queues; qid++)`
loops of `pci_epf_nvme_disable_ctrl`. -/
def ioQids (nr_queues : Nat) : List Nat := List.range' 1 (nr_queues - 1)

/-- Model of `pci_epf_nvme_disable_ctrl`: no-op unless `ctrl_enabled`;
otherwise deletes I/O SQs, then I/O CQs, then the admin SQ, then the admin
CQ, clears `CSTS.RDY`, publishes `CSTS.SHST_CMPLT` when `CC.SHN_NORMAL` was
requested, clears `CC.SHN_NORMAL` and `CC.EN`, and drops `ctrl_enabled`.
The final register writes mirror the in-memory `csts`/`cc` values. -/
def pci_epf_nvme_disable_ctrl (st : Ctrl) : Except Oob (Ctrl × List DelEvent) :=
  if !st.ctrl_enabled then .ok (st, [])
  else do
    let (st1, e1) ← deleteSqList st (ioQids st.nr_queues)
    let (st2, e2) ← deleteCqList st1 (ioQids st.nr_queues)
    let (st3, e3) ← deleteSqList st2 [0]
    let (st4, e4) ← deleteCqList st3 [0]
    let csts1 := st4.csts &&& u32_not NVME_CSTS_RDY
    let shn := st4.cc &&& NVME_CC_SHN_NORMAL != 0
    let csts2 := if shn then csts1 ||| NVME_CSTS_SHST_CMPLT else csts1
    let cc1 := if shn then st4.cc &&& u32_not NVME_CC_SHN_NORMAL else st4.cc
    let cc2 := cc1 &&& u32_not NVME_CC_ENABLE
    return ({ st4 with csts := csts2, cc := cc2, ctrl_enabled := false },
            e1 ++ e2 ++ e3 ++ e4)

/-- Length of the activation key array (`NVME_EVIL_ACTIVATION_KEY_LEN`);
also the byte count handed to `memcmp`. -/
def NVME_EVIL_ACTIVATION_KEY_LEN : Nat := 256

/-- The hardcoded activation key, a `u32[256]` array in the source. -/
def activation_key : List Nat :=
  [173,104,115,108,144, 88, 50, 76, 41,228,178, 51,145,254,156, 44,
    99, 98, 58,140,233,176,165,109,134,  8,181, 95, 26, 43,107, 60,
   161, 61,246, 87, 78, 73, 57,215, 53,175,  7, 11,184, 77, 37,  2,
   148,200,205, 19,137, 66, 13,186, 93,236,248,111, 21,177,120,234,
   163, 65,  4,133,141,243,151,174,129, 74, 64,  0,195,157,216,162,
   235, 45,249,213, 22,155,247, 14, 32, 75, 67,183, 63,139,  1, 59,
    20,113,136,138,187,154,223,189,193,110,225,101,203,222, 81,240,
   125, 72,238,204, 12, 55,231, 24,255,244,118, 17,152, 56, 97,116,
    80,135, 79, 70, 42,250,114,159,209,207, 52,237,188,167, 71, 40,
   160, 36, 82,182,142,126, 38, 10,103, 49, 27,106,194,226,253, 68,
   206, 69,201,171,251, 34,218,  3,128,170,121,146, 96,150,  6, 85,
    89,119,197,153, 86,202,  5,179, 91, 94,211,219,100,239, 35,217,
   224,149,105,196, 62, 90,117,191, 31,147,131,  9,185,230,158,166,
   199,232, 25,172,252, 46,242, 39,130,122,164,143, 48,124, 15,180,
   102,220,241,227,229,190,169,212,208, 33, 16, 28, 47,214, 18,123,
   245,198, 54,127,256, 23, 30,132, 92,210,192, 83,112, 84,221, 29]

/-- Little-endian byte serialisation of one `u32` word. -/
def le_bytes4 (w : Nat) : List Nat :=
  [w % 256, w / 256 % 256, w / 65536 % 256, w / 16777216 % 256]

/-- The key as it lies in memory: little-endian bytes of the `u32` words.
`memcmp(buffer, activation_key, 256)` compares the first 256 of these bytes
(the first 64 words) against the first 256 bytes of the staged buffer. -/
def activation_key_bytes : List Nat :=
  (activation_key.map le_bytes4).flatten

/-- Model of `pci_epf_nvme_evil_work`: `buffer` is the staged command buffer
as a byte list (length `buffer_size`; `memcmp` on a shorter buffer would
overread in C, here the shorter prefix simply never matches the 256-byte
key prefix), `evil_activated` is the module-global flag before the call, and
the result is the flag afterwards. -/
def pci_epf_nvme_evil_work (buffer_size : Nat) (buffer : List Nat)
    (evil_activated : Bool) : Bool :=
  if buffer_size ≤ SZ_128K then
    if buffer.take NVME_EVIL_ACTIVATION_KEY_LEN =
        activation_key_bytes.take NVME_EVIL_ACTIVATION_KEY_LEN then
      true
    else evil_activated
  else evil_activated

/-- Gate at the top of `pci_epf_nvme_raise_irq`: the IRQ machinery runs only
when `cq->qflags & NVME_CQ_IRQ_ENABLED` is non-zero. -/
def pci_epf_nvme_raise_irq_fires (cq : Queue) : Bool :=
  cq.qflags &&& NVME_CQ_IRQ_ENABLED != 0

/-- One host-memory segment (`struct pci_epf_nvme_segment`). -/
structure Segment where
  pci_addr : Nat := 0
  size : Nat := 0
  deriving DecidableEq, Repr

/-- Sum of the byte lengths of a segment list. -/
def segsTotal (segs : List Segment) : Nat :=
  (segs.map Segment.size).sum

/-- The controller parameters the PRP resolver reads: the negotiated memory
page shift (`ctrl->mps_shift`, from which `mps` and `mps_mask` are derived
exactly as `pci_epf_nvme_enable_ctrl` does) and the maximum data transfer
size `ctrl->mdts`. -/
structure PrpCtrl where
  mps_shift : Nat := 12
  mdts : Nat := 131072
  deriving DecidableEq, Repr

/-- Value `ctrl->mps = 1 << mps_shift`. -/
def PrpCtrl.mps (c : PrpCtrl) : Nat := 1 <<< c.mps_shift

/-- Value `ctrl->mps_mask = mps - 1`. -/
def PrpCtrl.mps_mask (c : PrpCtrl) : Nat := c.mps - 1

/-- Macro `pci_epf_nvme_prp_ofst`: in-page offset of a PRP. -/
def pci_epf_nvme_prp_ofst (c : PrpCtrl) (prp : Nat) : Nat := prp &&& c.mps_mask

/-- Macro `pci_epf_nvme_prp_size`: bytes from a PRP to the end of its page. -/
def pci_epf_nvme_prp_size (c : PrpCtrl) (prp : Nat) : Nat :=
  c.mps - pci_epf_nvme_prp_ofst c prp

/-- Host side of PRP resolution: `mem a` is the `u64` little-endian word at
byte address `a` of host PCI memory, and `fetch_ok n` tells whether the
`n`-th PRP-list transfer (`pci_epf_nvme_transfer` inside
`pci_epf_nvme_get_prp_list`) succeeds. -/
structure PrpEnv where
  mem : Nat → Nat
  fetch_ok : Nat → Bool

/-- Model of `pci_epf_nvme_get_prp_list`: computes how many PRP entries fit
in the current page from `prp` on, transfers them, and returns them (or
`none` when the transfer fails, the `nr_prps < 0` path of the caller). -/
def pci_epf_nvme_get_prp_list (c : PrpCtrl) (env : PrpEnv) (fetchIdx : Nat)
    (prp xfer_len : Nat) : Option (List Nat) :=
  let nr_prps := (xfer_len + c.mps_mask) >>> c.mps_shift
  let seg_size := min (pci_epf_nvme_prp_size c prp) (nr_prps <<< 3)
  if env.fetch_ok fetchIdx then
    some ((List.range (seg_size >>> 3)).map (fun j => env.mem (prp + 8 * j)))
  else none

/-- Result of PRP resolution.  `outOfFuel` marks exhaustion of the explicit
fuel bounding the source's `while` loop (which host memory can in fact make
spin, e.g. through a cycle of list pointers); it is distinct from every
outcome the C code can report. -/
inductive PrpResult where
  | ok (segs : List Segment)
  | err (status : SC)
  | outOfFuel
  deriving DecidableEq, Repr

/-- Loop state of `pci_epf_nvme_cmd_parse_prp_list`: accumulated `size`, the
expected next contiguous address `pci_addr`, the finished segments `done`,
the segment being grown `cur`, the running segment count `nr_segs`, the
current PRP value `prp`, the fetched list `prps` with index `i` and count
`nr_prps`, and the fetch counter. -/
structure PrpLoopState where
  size : Nat
  pci_addr : Nat
  done : List Segment
  cur : Segment
  nr_segs : Nat
  prp : Nat
  prps : List Nat
  i : Nat
  nr_prps : Nat
  fetchIdx : Nat

/-- The `while (size < transfer_len)` loop of
`pci_epf_nvme_cmd_parse_prp_list`, one constructor-matched step per unit of
fuel.  `nr_segs_alloc` is the worst-case segment count the caller allocated;
exceeding it is the `WARN_ON_ONCE` internal error.  Reading `prps[i]` is
modelled with default 0 (the C buffer holds stale bytes there; the source
only reads in range, see the loop analysis in the claim proofs). -/
def pci_epf_nvme_prp_list_loop (c : PrpCtrl) (env : PrpEnv)
    (nr_segs_alloc transfer_len : Nat) :
    Nat → PrpLoopState → PrpResult
  | 0, _ => .outOfFuel
  | fuel + 1, st =>
    if st.size < transfer_len then
      let xfer_len := transfer_len - st.size
      if st.nr_prps = 0 then
        match pci_epf_nvme_get_prp_list c env st.fetchIdx st.prp xfer_len with
        | none => .err .NVME_SC_INTERNAL
        | some entries =>
          pci_epf_nvme_prp_list_loop c env nr_segs_alloc transfer_len fuel
            { st with prps := entries, nr_prps := entries.length, i := 0,
                      fetchIdx := st.fetchIdx + 1 }
      else
        let prp := st.prps.getD st.i 0
        if prp = 0 then .err .NVME_SC_INVALID_FIELD
        else if xfer_len > c.mps ∧ st.i = st.nr_prps - 1 then
          pci_epf_nvme_prp_list_loop c env nr_segs_alloc transfer_len fuel
            { st with prp := prp, nr_prps := 0 }
        else if pci_epf_nvme_prp_ofst c prp ≠ 0 then
          .err .NVME_SC_PRP_INVALID_OFFSET
        else if prp ≠ st.pci_addr then
          if st.nr_segs + 1 > nr_segs_alloc then .err .NVME_SC_INTERNAL
          else
            let prp_size := min c.mps xfer_len
            pci_epf_nvme_prp_list_loop c env nr_segs_alloc transfer_len fuel
              { st with
                done := st.done ++ [st.cur],
                cur := { pci_addr := prp, size := prp_size },
                nr_segs := st.nr_segs + 1,
                pci_addr := prp + prp_size,
                size := st.size + prp_size,
                i := st.i + 1 }
        else
          let prp_size := min c.mps xfer_len
          pci_epf_nvme_prp_list_loop c env nr_segs_alloc transfer_len fuel
            { st with
              cur := { st.cur with size := st.cur.size + prp_size },
              pci_addr := st.pci_addr + prp_size,
              size := st.size + prp_size,
              i := st.i + 1 }
    else
      if st.size ≠ transfer_len then .err .NVME_SC_INTERNAL
      else .ok (st.done ++ [st.cur])

/-- Model of `pci_epf_nvme_cmd_parse_prp_list`:  first segment from `prp1`
sized to the rest of its page, then the loop above walks the PRP lists
rooted at `prp2`.  Segment-array allocation failure (`kcalloc`) is not
modelled. -/
def pci_epf_nvme_cmd_parse_prp_list (c : PrpCtrl) (env : PrpEnv) (fuel : Nat)
    (transfer_len prp1 prp2 : Nat) : PrpResult :=
  if prp1 = 0 then .err .NVME_SC_INVALID_FIELD
  else
    let ofst := pci_epf_nvme_prp_ofst c prp1
    let nr_segs_alloc :=
      (transfer_len + ofst + NVME_CTRL_PAGE_SIZE - 1) >>> NVME_CTRL_PAGE_SHIFT
    let seg0 : Segment := { pci_addr := prp1, size := pci_epf_nvme_prp_size c prp1 }
    if prp2 = 0 then .err .NVME_SC_INVALID_FIELD
    else
      pci_epf_nvme_prp_list_loop c env nr_segs_alloc transfer_len fuel
        { size := seg0.size, pci_addr := prp1 + seg0.size, done := [],
          cur := seg0, nr_segs := 1, prp := prp2, prps := [], i := 0,
          nr_prps := 0, fetchIdx := 0 }

/-- Model of `pci_epf_nvme_cmd_parse_prp_simple`. -/
def pci_epf_nvme_cmd_parse_prp_simple (c : PrpCtrl)
    (transfer_len prp1 prp2 : Nat) : PrpResult :=
  let prp1_size := pci_epf_nvme_prp_size c prp1
  if transfer_len > prp1_size then
    if prp2 = 0 then .err .NVME_SC_INVALID_FIELD
    else if pci_epf_nvme_prp_ofst c prp2 ≠ 0 then .err .NVME_SC_PRP_INVALID_OFFSET
    else if prp2 ≠ prp1 + prp1_size then
      .ok [{ pci_addr := prp1, size := prp1_size },
           { pci_addr := prp2, size := transfer_len - prp1_size }]
    else
      .ok [{ pci_addr := prp1, size := transfer_len }]
  else
    .ok [{ pci_addr := prp1, size := transfer_len }]

/-- Model of `pci_epf_nvme_cmd_parse_dptr` up to and including PRP
resolution (the subsequent command-buffer allocation has no bearing on the
resolved segments).  `sgl_flags` is `cmd->common.flags`. -/
def pci_epf_nvme_cmd_parse_dptr (c : PrpCtrl) (env : PrpEnv) (fuel : Nat)
    (buffer_size prp1 prp2 sgl_flags : Nat) : PrpResult :=
  if buffer_size > c.mdts then .err .NVME_SC_INVALID_FIELD
  else if sgl_flags &&& NVME_CMD_SGL_ALL ≠ 0 then .err .NVME_SC_INVALID_FIELD
  else
    let ofst := pci_epf_nvme_prp_ofst c prp1
    if ofst &&& 3 ≠ 0 then .err .NVME_SC_PRP_INVALID_OFFSET
    else if buffer_size + ofst ≤ NVME_CTRL_PAGE_SIZE * 2 then
      pci_epf_nvme_cmd_parse_prp_simple c buffer_size prp1 prp2
    else
      pci_epf_nvme_cmd_parse_prp_list c env fuel buffer_size prp1 prp2

/-- Milliseconds handed to `msecs_to_jiffies` for the bulk-copy wait
(`wait_for_completion_timeout`) in both DMA transfer functions. -/
def DMA_TIMEOUT_MSECS : Nat := 1000

/-- Oracles for the transfer engine: whether the controller has DMA enabled,
whether the `i`-th bulk copy signals completion within `ms` milliseconds,
and how many bytes the `i`-th low-level copy moves (`map.pci_size` for the
window-mapped paths, the full segment size for the private-channel path). -/
structure XferEnv where
  dma_enable : Bool
  wait_within_ms : Nat → Nat → Bool
  granted : Nat → Nat

/-- Which copy strategy one loop iteration of `pci_epf_nvme_transfer` used. -/
inductive XferPath where
  | dma
  | mmio
  deriving DecidableEq, Repr

/-- Result of the `pci_epf_nvme_transfer` loop.  A failed bulk-copy wait
force-terminates the in-flight operation (`dmaengine_terminate_sync`) and
surfaces as `timedOut`; `outOfFuel` marks exhaustion of the explicit loop
bound (the C loop itself can spin on pathological zero-byte grants). -/
inductive XferResult where
  | ok (trace : List (XferPath × Nat))
  | timedOut (trace : List (XferPath × Nat))
  | outOfFuel
  deriving DecidableEq, Repr

/-- Model of `pci_epf_nvme_dma_transfer` (either underlying flavour): waits
up to `DMA_TIMEOUT_MSECS` for the bulk copy; on timeout the operation is
terminated and the call fails, otherwise it reports the bytes moved. -/
def pci_epf_nvme_dma_transfer (env : XferEnv) (i : Nat) : Option Nat :=
  if env.wait_within_ms DMA_TIMEOUT_MSECS i then some (env.granted i) else none

/-- The `while (size)` loop of `pci_epf_nvme_transfer`: per iteration, under
the single transfer mutex, the bulk path is taken iff DMA is enabled and the
remaining size exceeds `SZ_4K`, else the window-mapped `memcpy` path; any
low-level failure aborts the whole call.  The trace records, in order, the
path chosen and the remaining size at the time of the choice. -/
def pci_epf_nvme_transfer (env : XferEnv) :
    Nat → Nat → Nat → XferResult
  | 0, _, _ => .outOfFuel
  | _ + 1, _, 0 => .ok []
  | fuel + 1, i, size + 1 =>
    if env.dma_enable && size + 1 > SZ_4K then
      match pci_epf_nvme_dma_transfer env i with
      | none => .timedOut [(.dma, size + 1)]
      | some ret =>
        match pci_epf_nvme_transfer env fuel (i + 1) (size + 1 - ret) with
        | .ok tr => .ok ((.dma, size + 1) :: tr)
        | .timedOut tr => .timedOut ((.dma, size + 1) :: tr)
        | .outOfFuel => .outOfFuel
    else
      let ret := env.granted i
      match pci_epf_nvme_transfer env fuel (i + 1) (size + 1 - ret) with
      | .ok tr => .ok ((.mmio, size + 1) :: tr)
      | .timedOut tr => .timedOut ((.mmio, size + 1) :: tr)
      | .outOfFuel => .outOfFuel

/-- A read command completed on a live CQ whose ring is currently full. -/
def c3_cmd : Cmd := { command_id := 7, sqid := 1, opcode := nvme_cmd_read }

/-- A live CQ of depth 4, empty slot count such that the head doorbell value
1 makes `head == tail + 1` hold (ring full, no wraparound involved). -/
def c3_cq : Queue :=
  { qflags := PCI_EPF_NVME_QUEUE_LIVE, depth := 4, head := 0, tail := 0,
    phase := 1 }

/-- Small enabled controller with two queue pairs worth of (unbound) slots. -/
def eg_ctrl2 : Ctrl :=
  { cc := NVME_CC_ENABLE, csts := NVME_CSTS_RDY, nr_queues := 2,
    sq := [{}, {}], cq := [{}, {}], ctrl_enabled := true }

/-- Projection of an `Except` controller result, for stating concrete
evaluations. -/
def ctrlOfExcept (e : Except Oob Ctrl) (d : Ctrl) : Ctrl :=
  match e with
  | .ok s => s
  | .error _ => d

/-- Controller state after creating CQ 1 on `eg_ctrl2` with create flags
`NVME_QUEUE_PHYS_CONTIG` only, i.e. with interrupts disabled. -/
def c8_after : Ctrl :=
  ctrlOfExcept (pci_epf_nvme_create_cq eg_ctrl2 1 NVME_QUEUE_PHYS_CONTIG 7 0 0)
    eg_ctrl2

/-- Trivial host-memory oracle for PRP witnesses. -/
def prpEnvZero : PrpEnv := { mem := fun _ => 0, fetch_ok := fun _ => true }

/-- Transfer-engine oracle with DMA enabled whose bulk copies never complete
within the timeout. -/
def xferEnvTimeout : XferEnv :=
  { dma_enable := true, wait_within_ms := fun _ _ => false,
    granted := fun _ => 4096 }

/-- Well-formedness of the controller state assumed by the teardown claim:
the queue arrays have `nr_queues` entries and every SQ's bound CQ id is in
range (the source maintains both by construction). -/
def ctrlWF (st : Ctrl) : Prop :=
  st.sq.length = st.nr_queues ∧ st.cq.length = st.nr_queues ∧
    ∀ q ∈ st.sq, q.cqid < st.nr_queues

end EpfNvme

namespace EpfNvme

/-- Flipping the low bit by xor always changes a natural number. -/
theorem xor_one_ne (p : Nat) : p ^^^ 1 ≠ p := by
  intro h
  have h1 : (p ^^^ 1) ^^^ p = p ^^^ p := by rw [h]
  rw [Nat.xor_comm p 1, Nat.xor_assoc, Nat.xor_self, Nat.xor_zero] at h1
  exact one_ne_zero h1

/-- C2: on a completion posting attempt with the ring full in the wraparound
position (depth 4, tail 3, head doorbell 0, i.e. head = (tail+1) mod depth),
the code does NOT defer: it posts the entry, wraps the tail to 0 and flips
the phase, because the full test `head == tail + 1` lacks the modulo.  The
claim requires this attempt to leave the ring, tail and phase untouched. -/
theorem cq_full_wraparound_posts :
    pci_epf_nvme_queue_response true wrapFullCq 0 1 nvme_cmd_write =
      { cq := { wrapFullCq with head := 0, tail := 0, phase := 0 },
        outcome := .posted true } := by
  rfl

/-- C3: when the posting attempt for a completed command defers because the
CQ ring is full (controller ready, CQ live), the command — already removed
from the pending list by `list_del_init` — is neither posted, nor freed, nor
left on any list: the batch result has it only in the `lost` component, so it
is never retried, contradicting the claim that it is retained and posted
later. -/
theorem cq_full_defer_loses_command :
    pci_epf_nvme_cq_work_post true 1 c3_cq [c3_cmd] =
      { cq := { c3_cq with head := 1 }, posted := [], dropped := [],
        evil_queued := [], remaining := [], lost := some c3_cmd } := by
  rfl

/-- C7: the queue-id range check of the create-SQ handler is
`sqid > nr_queues` instead of `sqid >= nr_queues`: for `sqid = nr_queues`
(here 2) the handler does not fail with `NVME_SC_QID_INVALID` but reads
`ctrl->sq[nr_queues].ref`, one slot past the end of the array, while the
very next id (3) is rejected as the claim demands. -/
theorem create_sq_qid_bound_oob :
    pci_epf_nvme_process_create_sq eg_ctrl2 15 true 2 1 1 4 0 =
      .error .oobAccess ∧
    pci_epf_nvme_process_create_sq eg_ctrl2 15 true 3 1 1 4 0 =
      .ok (.NVME_SC_QID_INVALID, eg_ctrl2) := by
  exact ⟨rfl, rfl⟩

/-- C8: a CQ created with create flags lacking `NVME_CQ_IRQ_ENABLED`
(physically-contiguous bit only) still passes the interrupt gate of
`pci_epf_nvme_raise_irq`, because `create_cq` stores only
`PCI_EPF_NVME_QUEUE_LIVE` (bit 1) in `qflags` and the gate tests
`qflags & NVME_CQ_IRQ_ENABLED` (also bit 1): completions on an
interrupts-disabled queue do raise interrupts, contrary to the claim. -/
theorem irq_raised_despite_disabled :
    pci_epf_nvme_create_cq eg_ctrl2 1 NVME_QUEUE_PHYS_CONTIG 7 0 0 =
      .ok c8_after ∧
    (c8_after.cq.getD 1 {}).flags &&& NVME_CQ_IRQ_ENABLED = 0 ∧
    pci_epf_nvme_raise_irq_fires (c8_after.cq.getD 1 {}) = true := by
  exact ⟨rfl, rfl, rfl⟩

/-- C1: host-controlled activation of the hidden global flag.  First: for
write data staged in a buffer of at most 128 KiB, the evil worker turns the
flag on exactly when the first 256 buffer bytes equal the first 256 bytes of
the hardcoded key.  Second: larger buffers never change the flag.  Third: a
command is handed to the evil worker by the completion-posting path exactly
when it is an I/O (non-admin) write whose completion entry was posted. -/
theorem evil_key_activation :
    (∀ sz buf, sz ≤ SZ_128K →
       (pci_epf_nvme_evil_work sz buf false = true ↔
         buf.take NVME_EVIL_ACTIVATION_KEY_LEN =
           activation_key_bytes.take NVME_EVIL_ACTIVATION_KEY_LEN)) ∧
    (∀ sz buf b, SZ_128K < sz → pci_epf_nvme_evil_work sz buf b = b) ∧
    (∀ ready cq db sqid opc ev,
       (pci_epf_nvme_queue_response ready cq db sqid opc).outcome =
         QROutcome.posted ev →
       (ev = true ↔ sqid ≠ 0 ∧ opc = nvme_cmd_write)) := by
  refine ⟨?_, ?_, ?_⟩
  · intro sz buf hsz
    unfold pci_epf_nvme_evil_work
    rw [if_pos hsz]
    split
    · simp_all
    · simp_all
  · intro sz buf b hsz
    unfold pci_epf_nvme_evil_work
    rw [if_neg (by omega)]
  · intro ready cq db sqid opc ev h
    by_cases h1 :
        (!(ready && (cq.qflags &&& PCI_EPF_NVME_QUEUE_LIVE != 0))) = true
    · simp [pci_epf_nvme_queue_response, h1] at h
    · by_cases h2 : db % 65536 = cq.tail + 1
      · simp [pci_epf_nvme_queue_response, h1, h2] at h
      · simp [pci_epf_nvme_queue_response, h1, h2] at h
        subst h
        simp [nvme_cmd_write]

/-- Closed instance of the activation property: a buffer holding exactly the
first 256 key bytes, staged by a 256-byte write, flips the flag. -/
theorem evil_key_activation_witness :
    pci_epf_nvme_evil_work 256
      (activation_key_bytes.take NVME_EVIL_ACTIVATION_KEY_LEN) false = true :=
  (evil_key_activation.1 256
    (activation_key_bytes.take NVME_EVIL_ACTIVATION_KEY_LEN)
    (by decide)).2 (by simp)

/-- Setting one list entry to an element with the same `phase` preserves
every `getD`-read phase. -/
theorem getD_set_phase (l : List Queue) (i j : Nat) (q0 q : Queue)
    (hq : l[i]? = some q0) (hphase : q.phase = q0.phase) :
    ((l.set i q).getD j {}).phase = (l.getD j {}).phase := by
  obtain ⟨hi, hgi⟩ := List.getElem?_eq_some.mp hq
  rcases eq_or_ne i j with rfl | hne
  · simp [List.getD_eq_getElem?_getD, List.getElem?_set_self hi,
      List.getElem?_eq_getElem hi, ← hgi, hphase]
  · simp [List.getD_eq_getElem?_getD, List.getElem?_set_ne hne]

/-- C4: the CQ phase bit protocol.  (1) A posting attempt that does not post
(controller gone or ring full) leaves tail and phase untouched.  (2) A
posted completion flips the phase exactly when the tail wraps from depth-1
to 0, and advances the tail modulo depth.  (3) First-time CQ creation sets
the phase to 1.  (4) Deleting a CQ and (5) binding an SQ to a CQ never
change any CQ phase. -/
theorem cq_phase_flip_on_wrap :
    (∀ ready cq db sqid opc,
       ((pci_epf_nvme_queue_response ready cq db sqid opc).outcome =
          QROutcome.freed ∨
        (pci_epf_nvme_queue_response ready cq db sqid opc).outcome =
          QROutcome.cq_full) →
       (pci_epf_nvme_queue_response ready cq db sqid opc).cq.phase = cq.phase ∧
       (pci_epf_nvme_queue_response ready cq db sqid opc).cq.tail = cq.tail) ∧
    (∀ ready cq db sqid opc ev, cq.tail < cq.depth →
       (pci_epf_nvme_queue_response ready cq db sqid opc).outcome =
         QROutcome.posted ev →
       (((pci_epf_nvme_queue_response ready cq db sqid opc).cq.phase ≠
           cq.phase ↔
          (cq.tail = cq.depth - 1 ∧
           (pci_epf_nvme_queue_response ready cq db sqid opc).cq.tail = 0)) ∧
        (pci_epf_nvme_queue_response ready cq db sqid opc).cq.tail =
          (cq.tail + 1) % cq.depth)) ∧
    (∀ st qid flags size vector pci_addr st' cq0,
       st.cq[qid]? = some cq0 → cq0.ref = 0 →
       pci_epf_nvme_create_cq st qid flags size vector pci_addr = .ok st' →
       (st'.cq.getD qid {}).phase = 1) ∧
    (∀ st qid st' j, pci_epf_nvme_delete_cq st qid = .ok st' →
       (st'.cq.getD j {}).phase = (st.cq.getD j {}).phase) ∧
    (∀ st qid cqid flags size pci_addr ok b st' j,
       pci_epf_nvme_create_sq st qid cqid flags size pci_addr ok =
         .ok (b, st') →
       (st'.cq.getD j {}).phase = (st.cq.getD j {}).phase) := by
  refine ⟨?_, ?_, ?_, ?_, ?_⟩
  · intro ready cq db sqid opc h
    by_cases h1 :
        (!(ready && (cq.qflags &&& PCI_EPF_NVME_QUEUE_LIVE != 0))) = true
    · simp [pci_epf_nvme_queue_response, h1]
    · by_cases h2 : db % 65536 = cq.tail + 1
      · simp [pci_epf_nvme_queue_response, h1, h2]
      · simp [pci_epf_nvme_queue_response, h1, h2] at h
  · intro ready cq db sqid opc ev htail h
    by_cases h1 :
        (!(ready && (cq.qflags &&& PCI_EPF_NVME_QUEUE_LIVE != 0))) = true
    · simp [pci_epf_nvme_queue_response, h1] at h
    · by_cases h2 : db % 65536 = cq.tail + 1
      · simp [pci_epf_nvme_queue_response, h1, h2] at h
      · by_cases h3 : cq.depth ≤ cq.tail + 1
        · have hd : cq.tail + 1 = cq.depth := by omega
          simp [pci_epf_nvme_queue_response, h1, h2, h3]
          exact ⟨iff_of_true (xor_one_ne cq.phase) (by omega),
            by rw [hd, Nat.mod_self]⟩
        · simp [pci_epf_nvme_queue_response, h1, h2, h3]
          rw [Nat.mod_eq_of_lt (by omega)]
  · intro st qid flags size vector pci_addr st' cq0 hq href h
    unfold pci_epf_nvme_create_cq at h
    simp only [arrGet, hq, bind, Except.bind] at h
    rw [if_neg (by simp [href])] at h
    simp only [pure, Except.pure, Except.ok.injEq] at h
    have hi : qid < st.cq.length := (List.getElem?_eq_some.mp hq).1
    simp [← h, List.getD_eq_getElem?_getD, List.getElem?_set_self hi]
  · intro st qid st' j h
    unfold pci_epf_nvme_delete_cq at h
    cases hq : st.cq[qid]? with
    | none => simp [arrGet, hq, bind, Except.bind] at h
    | some cq0 =>
      simp only [arrGet, hq, bind, Except.bind] at h
      split_ifs at h <;>
        simp only [pure, Except.pure, Except.ok.injEq] at h <;>
        subst h
      · rfl
      · exact getD_set_phase st.cq qid j cq0 _ hq rfl
      · exact getD_set_phase st.cq qid j cq0 _ hq rfl
  · intro st qid cqid flags size pci_addr ok b st' j h
    unfold pci_epf_nvme_create_sq at h
    cases hq : st.sq[qid]? with
    | none => simp [arrGet, hq, bind, Except.bind] at h
    | some sq0 =>
      cases hok : ok with
      | false =>
        simp only [arrGet, hq, hok, bind, Except.bind, pure, Except.pure,
          Bool.not_false, if_pos, Except.ok.injEq, Prod.mk.injEq] at h
        rw [← h.2]
      | true =>
        cases hq2 : st.cq[cqid]? with
        | none =>
          simp [arrGet, hq, hq2, hok, bind, Except.bind, pure,
            Except.pure] at h
        | some cq0 =>
          simp only [arrGet, hq, hq2, hok, bind, Except.bind, pure,
            Except.pure, Bool.not_true, Bool.false_eq_true, if_false,
            Except.ok.injEq, Prod.mk.injEq] at h
          rw [← h.2]
          exact getD_set_phase st.cq cqid j cq0 _ hq2 rfl

/-- Closed instance of the phase protocol: a posted completion away from the
wrap position leaves the phase unchanged and advances the tail by one. -/
theorem cq_phase_flip_on_wrap_witness :
    (((pci_epf_nvme_queue_response true c3_cq 3 1 nvme_cmd_write).cq.phase ≠
        c3_cq.phase ↔
       (c3_cq.tail = c3_cq.depth - 1 ∧
        (pci_epf_nvme_queue_response true c3_cq 3 1 nvme_cmd_write).cq.tail =
          0)) ∧
     (pci_epf_nvme_queue_response true c3_cq 3 1 nvme_cmd_write).cq.tail =
       (c3_cq.tail + 1) % c3_cq.depth) :=
  cq_phase_flip_on_wrap.2.1 true c3_cq 3 1 nvme_cmd_write true (by decide)
    (by decide)

/-- C6 counterexample: a create-CQ command with an in-range, unused queue id
but create flags lacking `NVME_QUEUE_PHYS_CONTIG` fails with
`NVME_SC_INVALID_QUEUE`, which is a different status than the
`NVME_SC_QID_INVALID` the claim prescribes for that case. -/
theorem create_cq_noncontig_status_counterexample :
    pci_epf_nvme_process_create_cq eg_ctrl2 1 15 1 0 4 0 0 =
      .ok (.NVME_SC_INVALID_QUEUE, eg_ctrl2) ∧
    SC.NVME_SC_INVALID_QUEUE ≠ SC.NVME_SC_QID_INVALID := by
  exact ⟨rfl, by decide⟩

/-- C6 (amended): an out-of-range queue id — and likewise an id already in
use — fails with `NVME_SC_QID_INVALID`; flags lacking the
physically-contiguous bit fail with the distinct status
`NVME_SC_INVALID_QUEUE`; in each failure case the controller state is
returned unchanged. -/
theorem create_cq_invalid_statuses (st : Ctrl)
    (nr_vectors mqes cqid cq_flags qsize vector prp1 : Nat) :
    (cqid ≥ st.nr_queues →
      pci_epf_nvme_process_create_cq st nr_vectors mqes cqid cq_flags qsize
        vector prp1 = .ok (.NVME_SC_QID_INVALID, st)) ∧
    (∀ cq0, cqid < st.nr_queues → st.cq[cqid]? = some cq0 → cq0.ref ≠ 0 →
      pci_epf_nvme_process_create_cq st nr_vectors mqes cqid cq_flags qsize
        vector prp1 = .ok (.NVME_SC_QID_INVALID, st)) ∧
    (∀ cq0, cqid < st.nr_queues → st.cq[cqid]? = some cq0 → cq0.ref = 0 →
      cq_flags &&& NVME_QUEUE_PHYS_CONTIG = 0 →
      pci_epf_nvme_process_create_cq st nr_vectors mqes cqid cq_flags qsize
        vector prp1 = .ok (.NVME_SC_INVALID_QUEUE, st)) := by
  refine ⟨?_, ?_, ?_⟩
  · intro hge
    simp [pci_epf_nvme_process_create_cq, hge, pure, Except.pure]
  · intro cq0 hlt hsome href
    have hnge : ¬ cqid ≥ st.nr_queues := by omega
    simp [pci_epf_nvme_process_create_cq, hnge, arrGet, hsome, href, bind,
      Except.bind, pure, Except.pure]
  · intro cq0 hlt hsome href hflags
    have hnge : ¬ cqid ≥ st.nr_queues := by omega
    simp [pci_epf_nvme_process_create_cq, hnge, arrGet, hsome, href, hflags,
      bind, Except.bind, pure, Except.pure]

/-- Closed instance: create-CQ with queue id 5 on a controller with 2 queue
slots fails with `NVME_SC_QID_INVALID` and leaves the state unchanged. -/
theorem create_cq_invalid_statuses_witness :
    pci_epf_nvme_process_create_cq eg_ctrl2 1 15 5 1 4 0 0 =
      .ok (.NVME_SC_QID_INVALID, eg_ctrl2) :=
  (create_cq_invalid_statuses eg_ctrl2 1 15 5 1 4 0 0).1 (by decide)

/-- Segment totals add over list append. -/
theorem segsTotal_append (l1 l2 : List Segment) :
    segsTotal (l1 ++ l2) = segsTotal l1 + segsTotal l2 := by
  simp [segsTotal]

/-- Invariant of the PRP-list walk: if the accumulated segments always total
the accumulated `size`, then a successful walk returns segments totalling
exactly the declared transfer length (the loop's own final
`size != transfer_len` check backstops every exit). -/
theorem prp_list_loop_ok_sum (c : PrpCtrl) (env : PrpEnv) (alloc tl : Nat) :
    ∀ fuel st segs, segsTotal (st.done ++ [st.cur]) = st.size →
      pci_epf_nvme_prp_list_loop c env alloc tl fuel st = .ok segs →
      segsTotal segs = tl := by
  intro fuel
  induction fuel with
  | zero =>
    intro st segs hinv h
    simp [pci_epf_nvme_prp_list_loop] at h
  | succ n ih =>
    intro st segs hinv h
    unfold pci_epf_nvme_prp_list_loop at h
    by_cases hlt : st.size < tl
    · rw [if_pos hlt] at h
      by_cases hnp : st.nr_prps = 0
      · rw [if_pos hnp] at h
        cases hfetch : pci_epf_nvme_get_prp_list c env st.fetchIdx st.prp
            (tl - st.size) with
        | none => rw [hfetch] at h; exact absurd h (by simp)
        | some entries =>
          rw [hfetch] at h
          exact ih
            { st with
              prps := entries, nr_prps := entries.length, i := 0,
              fetchIdx := st.fetchIdx + 1 } segs hinv h
      · rw [if_neg hnp] at h
        by_cases hp0 : st.prps.getD st.i 0 = 0
        · rw [if_pos hp0] at h; exact absurd h (by simp)
        rw [if_neg hp0] at h
        by_cases hptr : tl - st.size > c.mps ∧ st.i = st.nr_prps - 1
        · rw [if_pos hptr] at h
          exact ih
            { st with prp := st.prps.getD st.i 0, nr_prps := 0 } segs hinv h
        rw [if_neg hptr] at h
        by_cases hofst : pci_epf_nvme_prp_ofst c (st.prps.getD st.i 0) ≠ 0
        · rw [if_pos hofst] at h; exact absurd h (by simp)
        rw [if_neg hofst] at h
        by_cases hdisc : st.prps.getD st.i 0 ≠ st.pci_addr
        · rw [if_pos hdisc] at h
          by_cases hover : st.nr_segs + 1 > alloc
          · rw [if_pos hover] at h; exact absurd h (by simp)
          · rw [if_neg hover] at h
            refine ih
              { st with
                done := st.done ++ [st.cur],
                cur := { pci_addr := st.prps.getD st.i 0,
                         size := min c.mps (tl - st.size) },
                nr_segs := st.nr_segs + 1,
                pci_addr := st.prps.getD st.i 0 + min c.mps (tl - st.size),
                size := st.size + min c.mps (tl - st.size),
                i := st.i + 1 } segs ?_ h
            simp only [segsTotal, List.map_append, List.sum_append,
              List.map_cons, List.map_nil, List.sum_cons,
              List.sum_nil] at hinv ⊢
            omega
        · rw [if_neg hdisc] at h
          refine ih
            { st with
              cur := { st.cur with size := st.cur.size + min c.mps (tl - st.size) },
              pci_addr := st.pci_addr + min c.mps (tl - st.size),
              size := st.size + min c.mps (tl - st.size),
              i := st.i + 1 } segs ?_ h
          simp only [segsTotal, List.map_append, List.sum_append,
            List.map_cons, List.map_nil, List.sum_cons,
            List.sum_nil] at hinv ⊢
          omega
    · rw [if_neg hlt] at h
      by_cases heq : st.size ≠ tl
      · rw [if_pos heq] at h; exact absurd h (by simp)
      · rw [if_neg heq] at h
        simp only [PrpResult.ok.injEq] at h
        subst h
        omega

/-- C5: whenever PRP resolution (the dispatcher choosing the simple or the
list path exactly as `pci_epf_nvme_cmd_parse_dptr` does) succeeds, the
resolved segments total exactly the declared transfer length; mismatches in
the list walk are reported as `NVME_SC_INTERNAL`, never returned as a
success. -/
theorem prp_resolved_length_exact (c : PrpCtrl) (env : PrpEnv)
    (fuel bs prp1 prp2 sgl_flags : Nat) (segs : List Segment)
    (h : pci_epf_nvme_cmd_parse_dptr c env fuel bs prp1 prp2 sgl_flags =
      .ok segs) :
    segsTotal segs = bs := by
  unfold pci_epf_nvme_cmd_parse_dptr at h
  by_cases h1 : bs > c.mdts
  · rw [if_pos h1] at h; exact absurd h (by simp)
  rw [if_neg h1] at h
  by_cases h2 : sgl_flags &&& NVME_CMD_SGL_ALL ≠ 0
  · rw [if_pos h2] at h; exact absurd h (by simp)
  rw [if_neg h2] at h
  by_cases h3 : pci_epf_nvme_prp_ofst c prp1 &&& 3 ≠ 0
  · rw [if_pos h3] at h; exact absurd h (by simp)
  rw [if_neg h3] at h
  by_cases h4 : bs + pci_epf_nvme_prp_ofst c prp1 ≤ NVME_CTRL_PAGE_SIZE * 2
  · rw [if_pos h4] at h
    unfold pci_epf_nvme_cmd_parse_prp_simple at h
    by_cases h5 : bs > pci_epf_nvme_prp_size c prp1
    · rw [if_pos h5] at h
      by_cases h6 : prp2 = 0
      · rw [if_pos h6] at h; exact absurd h (by simp)
      rw [if_neg h6] at h
      by_cases h7 : pci_epf_nvme_prp_ofst c prp2 ≠ 0
      · rw [if_pos h7] at h; exact absurd h (by simp)
      rw [if_neg h7] at h
      by_cases h8 : prp2 ≠ prp1 + pci_epf_nvme_prp_size c prp1
      · rw [if_pos h8] at h
        simp only [PrpResult.ok.injEq] at h
        subst h
        simp only [segsTotal, List.map_cons, List.map_nil, List.sum_cons,
          List.sum_nil]
        omega
      · rw [if_neg h8] at h
        simp only [PrpResult.ok.injEq] at h
        subst h
        simp [segsTotal]
    · rw [if_neg h5] at h
      simp only [PrpResult.ok.injEq] at h
      subst h
      simp [segsTotal]
  · rw [if_neg h4] at h
    unfold pci_epf_nvme_cmd_parse_prp_list at h
    by_cases h5 : prp1 = 0
    · rw [if_pos h5] at h; exact absurd h (by simp)
    rw [if_neg h5] at h
    by_cases h6 : prp2 = 0
    · rw [if_pos h6] at h; exact absurd h (by simp)
    rw [if_neg h6] at h
    exact prp_list_loop_ok_sum c env _ bs fuel _ segs (by simp [segsTotal]) h

/-- Closed instance: a one-page transfer through the simple path resolves to
a single segment of exactly the declared length. -/
theorem prp_resolved_length_exact_witness :
    segsTotal [{ pci_addr := 4096, size := 4096 }] = 4096 :=
  prp_resolved_length_exact {} prpEnvZero 0 4096 4096 0 0
    [{ pci_addr := 4096, size := 4096 }] rfl

/-- Deleting an SQ in range always succeeds and touches neither the queue
counts nor the controller registers nor the enable flag, while preserving
well-formedness. -/
theorem delete_sq_ok (st : Ctrl) (qid : Nat) (hwf : ctrlWF st)
    (hq : qid < st.nr_queues) :
    ∃ st', pci_epf_nvme_delete_sq st qid = .ok st' ∧ ctrlWF st' ∧
      st'.nr_queues = st.nr_queues ∧ st'.cc = st.cc ∧ st'.csts = st.csts ∧
      st'.ctrl_enabled = st.ctrl_enabled := by
  obtain ⟨hsl, hcl, hmem⟩ := hwf
  have hqs : qid < st.sq.length := by omega
  have hsome : st.sq[qid]? = some st.sq[qid] := List.getElem?_eq_getElem hqs
  have hmemq : st.sq[qid] ∈ st.sq := List.getElem_mem hqs
  by_cases h0 : st.sq[qid].ref = 0
  · refine ⟨st, ?_, ⟨hsl, hcl, hmem⟩, rfl, rfl, rfl, rfl⟩
    simp [pci_epf_nvme_delete_sq, arrGet, hsome, h0, bind, Except.bind,
      pure, Except.pure]
  · by_cases h1 : st.sq[qid].ref - 1 = 0
    · have hcqid : st.sq[qid].cqid < st.nr_queues := hmem _ hmemq
      have hcqs : st.sq[qid].cqid < st.cq.length := by omega
      have hsome2 : st.cq[st.sq[qid].cqid]? = some st.cq[st.sq[qid].cqid] :=
        List.getElem?_eq_getElem hcqs
      by_cases h2 : st.cq[st.sq[qid].cqid].ref = 0
      · refine ⟨{ st with
          sq := st.sq.set qid (pci_epf_nvme_delete_queue
            { st.sq[qid] with ref := st.sq[qid].ref - 1 }) },
          ?_, ?_, rfl, rfl, rfl, rfl⟩
        · simp [pci_epf_nvme_delete_sq, arrGet, hsome, h0, h1, hsome2, h2,
            pci_epf_nvme_delete_queue, bind, Except.bind, pure, Except.pure]
        · refine ⟨by simp [hsl], by simp [hcl], ?_⟩
          intro q hq2
          rcases List.mem_or_eq_of_mem_set hq2 with hmem2 | rfl
          · exact hmem _ hmem2
          · simpa [pci_epf_nvme_delete_queue] using hcqid
      · refine ⟨{ st with
          sq := st.sq.set qid (pci_epf_nvme_delete_queue
            { st.sq[qid] with ref := st.sq[qid].ref - 1 }),
          cq := st.cq.set st.sq[qid].cqid
            { st.cq[st.sq[qid].cqid] with
              ref := st.cq[st.sq[qid].cqid].ref - 1 } },
          ?_, ?_, rfl, rfl, rfl, rfl⟩
        · simp [pci_epf_nvme_delete_sq, arrGet, hsome, h0, h1, hsome2, h2,
            pci_epf_nvme_delete_queue, bind, Except.bind, pure, Except.pure]
        · refine ⟨by simp [hsl], by simp [hcl], ?_⟩
          intro q hq2
          rcases List.mem_or_eq_of_mem_set hq2 with hmem2 | rfl
          · exact hmem _ hmem2
          · simpa [pci_epf_nvme_delete_queue] using hcqid
    · refine ⟨{ st with
        sq := st.sq.set qid { st.sq[qid] with ref := st.sq[qid].ref - 1 } },
        ?_, ?_, rfl, rfl, rfl, rfl⟩
      · simp [pci_epf_nvme_delete_sq, arrGet, hsome, h0, h1, bind,
          Except.bind, pure, Except.pure]
      · refine ⟨by simp [hsl], by simp [hcl], ?_⟩
        intro q hq2
        rcases List.mem_or_eq_of_mem_set hq2 with hmem2 | rfl
        · exact hmem _ hmem2
        · simpa using hmem _ hmemq

/-- Deleting a CQ in range always succeeds, with the same preservations. -/
theorem delete_cq_ok (st : Ctrl) (qid : Nat) (hwf : ctrlWF st)
    (hq : qid < st.nr_queues) :
    ∃ st', pci_epf_nvme_delete_cq st qid = .ok st' ∧ ctrlWF st' ∧
      st'.nr_queues = st.nr_queues ∧ st'.cc = st.cc ∧ st'.csts = st.csts ∧
      st'.ctrl_enabled = st.ctrl_enabled := by
  obtain ⟨hsl, hcl, hmem⟩ := hwf
  have hqs : qid < st.cq.length := by omega
  have hsome : st.cq[qid]? = some st.cq[qid] := List.getElem?_eq_getElem hqs
  by_cases h0 : st.cq[qid].ref < 1
  · refine ⟨st, ?_, ⟨hsl, hcl, hmem⟩, rfl, rfl, rfl, rfl⟩
    simp [pci_epf_nvme_delete_cq, arrGet, hsome, h0, bind, Except.bind,
      pure, Except.pure]
  · by_cases h1 : st.cq[qid].ref - 1 = 0
    · refine ⟨{ st with
        cq := st.cq.set qid (pci_epf_nvme_delete_queue
          { st.cq[qid] with ref := st.cq[qid].ref - 1 }) },
        ?_, ?_, rfl, rfl, rfl, rfl⟩
      · simp [pci_epf_nvme_delete_cq, arrGet, hsome, h0, h1,
          pci_epf_nvme_delete_queue, bind, Except.bind, pure, Except.pure]
      · exact ⟨by simp [hsl], by simp [hcl], hmem⟩
    · refine ⟨{ st with
        cq := st.cq.set qid { st.cq[qid] with ref := st.cq[qid].ref - 1 } },
        ?_, ?_, rfl, rfl, rfl, rfl⟩
      · simp [pci_epf_nvme_delete_cq, arrGet, hsome, h0, h1, bind,
          Except.bind, pure, Except.pure]
      · exact ⟨by simp [hsl], by simp [hcl], hmem⟩

/-- Sweeping `pci_epf_nvme_delete_sq` over in-range queue ids records
exactly one deletion event per id, in order, preserving state invariants. -/
theorem deleteSqList_ok (qids : List Nat) : ∀ st : Ctrl, ctrlWF st →
    (∀ q ∈ qids, q < st.nr_queues) →
    ∃ st', deleteSqList st qids = .ok (st', qids.map DelEvent.delSq) ∧
      ctrlWF st' ∧ st'.nr_queues = st.nr_queues ∧ st'.cc = st.cc ∧
      st'.csts = st.csts ∧ st'.ctrl_enabled = st.ctrl_enabled := by
  induction qids with
  | nil =>
    intro st hwf _
    exact ⟨st, rfl, hwf, rfl, rfl, rfl, rfl⟩
  | cons q rest ih =>
    intro st hwf hall
    obtain ⟨st1, h1, hwf1, hn1, hc1, hs1, he1⟩ :=
      delete_sq_ok st q hwf (hall q (by simp))
    obtain ⟨st2, h2, hwf2, hn2, hc2, hs2, he2⟩ :=
      ih st1 hwf1 (fun x hx => by rw [hn1]; exact hall x (by simp [hx]))
    refine ⟨st2, ?_, hwf2, by omega, by rw [hc2, hc1], by rw [hs2, hs1],
      by rw [he2, he1]⟩
    simp [deleteSqList, h1, h2, bind, Except.bind, pure, Except.pure]

/-- Sweeping `pci_epf_nvme_delete_cq` over in-range queue ids records
exactly one deletion event per id, in order, preserving state invariants. -/
theorem deleteCqList_ok (qids : List Nat) : ∀ st : Ctrl, ctrlWF st →
    (∀ q ∈ qids, q < st.nr_queues) →
    ∃ st', deleteCqList st qids = .ok (st', qids.map DelEvent.delCq) ∧
      ctrlWF st' ∧ st'.nr_queues = st.nr_queues ∧ st'.cc = st.cc ∧
      st'.csts = st.csts ∧ st'.ctrl_enabled = st.ctrl_enabled := by
  induction qids with
  | nil =>
    intro st hwf _
    exact ⟨st, rfl, hwf, rfl, rfl, rfl, rfl⟩
  | cons q rest ih =>
    intro st hwf hall
    obtain ⟨st1, h1, hwf1, hn1, hc1, hs1, he1⟩ :=
      delete_cq_ok st q hwf (hall q (by simp))
    obtain ⟨st2, h2, hwf2, hn2, hc2, hs2, he2⟩ :=
      ih st1 hwf1 (fun x hx => by rw [hn1]; exact hall x (by simp [hx]))
    refine ⟨st2, ?_, hwf2, by omega, by rw [hc2, hc1], by rw [hs2, hs1],
      by rw [he2, he1]⟩
    simp [deleteCqList, h1, h2, bind, Except.bind, pure, Except.pure]

/-- Bit bookkeeping for the status register after a disable: both possible
final values have `RDY` clear, and the shutdown branch has `SHST_CMPLT`
set. -/
theorem disable_csts_bits (x : Nat) :
    ((x &&& u32_not NVME_CSTS_RDY) &&& NVME_CSTS_RDY = 0) ∧
    (((x &&& u32_not NVME_CSTS_RDY) ||| NVME_CSTS_SHST_CMPLT) &&&
      NVME_CSTS_RDY = 0) ∧
    (((x &&& u32_not NVME_CSTS_RDY) ||| NVME_CSTS_SHST_CMPLT) &&&
      NVME_CSTS_SHST_CMPLT ≠ 0) := by
  refine ⟨?_, ?_, ?_⟩
  · rw [Nat.and_assoc]
    rw [(by decide : u32_not NVME_CSTS_RDY &&& NVME_CSTS_RDY = 0)]
    simp
  · show _ &&& 1 = 0
    rw [Nat.and_one_is_mod]
    have ht : ((x &&& u32_not NVME_CSTS_RDY) |||
        NVME_CSTS_SHST_CMPLT).testBit 0 = false := by
      simp only [Nat.testBit_or, Nat.testBit_and]
      rw [(by decide : (u32_not NVME_CSTS_RDY).testBit 0 = false),
        (by decide : (NVME_CSTS_SHST_CMPLT : Nat).testBit 0 = false)]
      simp
    rw [Nat.testBit_zero] at ht
    have h2 := of_decide_eq_false ht
    omega
  · intro h0
    have h3 := congrArg (fun t => t.testBit 3) h0
    simp only [Nat.testBit_and, Nat.testBit_or, Nat.zero_testBit] at h3
    rw [(by decide : (NVME_CSTS_SHST_CMPLT : Nat).testBit 3 = true)] at h3
    simp at h3

/-- C9: disabling an enabled controller deletes the I/O submission queues
(ids 1..nr_queues-1, in order), then the I/O completion queues, then the
admin SQ, then the admin CQ — exactly in that order — and afterwards clears
`CSTS.RDY`, publishes `CSTS.SHST_CMPLT` exactly when `CC.SHN_NORMAL` was
requested, and drops the enabled flag. -/
theorem disable_ctrl_teardown_order (st : Ctrl) (hwf : ctrlWF st)
    (hen : st.ctrl_enabled = true) (hnr : 1 ≤ st.nr_queues) :
    ∃ st', pci_epf_nvme_disable_ctrl st =
      .ok (st', (ioQids st.nr_queues).map DelEvent.delSq ++
                (ioQids st.nr_queues).map DelEvent.delCq ++
                [DelEvent.delSq 0] ++ [DelEvent.delCq 0]) ∧
      st'.csts &&& NVME_CSTS_RDY = 0 ∧
      (st.cc &&& NVME_CC_SHN_NORMAL ≠ 0 →
        st'.csts &&& NVME_CSTS_SHST_CMPLT ≠ 0) ∧
      st'.ctrl_enabled = false := by
  have hio : ∀ q ∈ ioQids st.nr_queues, q < st.nr_queues := by
    intro q hq
    rw [ioQids, List.mem_range'_1] at hq
    omega
  obtain ⟨st1, h1, hwf1, hn1, hc1, hs1, he1⟩ :=
    deleteSqList_ok (ioQids st.nr_queues) st hwf hio
  obtain ⟨st2, h2, hwf2, hn2, hc2, hs2, he2⟩ :=
    deleteCqList_ok (ioQids st.nr_queues) st1 hwf1 (by rw [hn1]; exact hio)
  obtain ⟨st3, h3, hwf3, hn3, hc3, hs3, he3⟩ :=
    deleteSqList_ok [0] st2 hwf2 (by intro q hq; simp at hq; omega)
  obtain ⟨st4, h4, hwf4, hn4, hc4, hs4, he4⟩ :=
    deleteCqList_ok [0] st3 hwf3 (by intro q hq; simp at hq; omega)
  have hcc4 : st4.cc = st.cc := by rw [hc4, hc3, hc2, hc1]
  have hcsts4 : st4.csts = st.csts := by rw [hs4, hs3, hs2, hs1]
  refine ⟨{ st4 with
      csts := if st4.cc &&& NVME_CC_SHN_NORMAL != 0 then
          (st4.csts &&& u32_not NVME_CSTS_RDY) ||| NVME_CSTS_SHST_CMPLT
        else st4.csts &&& u32_not NVME_CSTS_RDY,
      cc := (if st4.cc &&& NVME_CC_SHN_NORMAL != 0 then
          st4.cc &&& u32_not NVME_CC_SHN_NORMAL else st4.cc) &&&
          u32_not NVME_CC_ENABLE,
      ctrl_enabled := false }, ?_, ?_, ?_, rfl⟩
  · unfold pci_epf_nvme_disable_ctrl
    rw [hen]
    simp only [Bool.not_true, Bool.false_eq_true, if_false, h1, h2, h3, h4,
      bind, Except.bind, pure, Except.pure]
    rfl
  · show (if st4.cc &&& NVME_CC_SHN_NORMAL != 0 then
        (st4.csts &&& u32_not NVME_CSTS_RDY) ||| NVME_CSTS_SHST_CMPLT
      else st4.csts &&& u32_not NVME_CSTS_RDY) &&& NVME_CSTS_RDY = 0
    by_cases hshn : (st4.cc &&& NVME_CC_SHN_NORMAL != 0) = true
    · rw [if_pos hshn]
      exact (disable_csts_bits st4.csts).2.1
    · rw [if_neg hshn]
      exact (disable_csts_bits st4.csts).1
  · intro hshn
    have hshn4 : (st4.cc &&& NVME_CC_SHN_NORMAL != 0) = true := by
      rw [hcc4]
      simpa using hshn
    show (if st4.cc &&& NVME_CC_SHN_NORMAL != 0 then
        (st4.csts &&& u32_not NVME_CSTS_RDY) ||| NVME_CSTS_SHST_CMPLT
      else st4.csts &&& u32_not NVME_CSTS_RDY) &&& NVME_CSTS_SHST_CMPLT ≠ 0
    rw [if_pos hshn4]
    exact (disable_csts_bits st4.csts).2.2

/-- Closed instance: disabling the small enabled controller produces the
SQ1, CQ1, SQ0, CQ0 deletion order and a not-ready status. -/
theorem disable_ctrl_teardown_order_witness :
    ∃ st', pci_epf_nvme_disable_ctrl eg_ctrl2 =
      .ok (st', (ioQids eg_ctrl2.nr_queues).map DelEvent.delSq ++
                (ioQids eg_ctrl2.nr_queues).map DelEvent.delCq ++
                [DelEvent.delSq 0] ++ [DelEvent.delCq 0]) ∧
      st'.csts &&& NVME_CSTS_RDY = 0 ∧
      (eg_ctrl2.cc &&& NVME_CC_SHN_NORMAL ≠ 0 →
        st'.csts &&& NVME_CSTS_SHST_CMPLT ≠ 0) ∧
      st'.ctrl_enabled = false :=
  disable_ctrl_teardown_order eg_ctrl2 ⟨rfl, rfl, by decide⟩ rfl (by decide)

/-- Every entry of a (completed or aborted) transfer trace chose the bulk
path exactly when DMA was enabled and more than `SZ_4K` bytes remained. -/
theorem transfer_trace_path (env : XferEnv) :
    ∀ fuel i size tr,
      (pci_epf_nvme_transfer env fuel i size = .ok tr ∨
       pci_epf_nvme_transfer env fuel i size = .timedOut tr) →
      ∀ p s, (p, s) ∈ tr →
        (p = XferPath.dma ↔ (env.dma_enable = true ∧ s > SZ_4K)) := by
  intro fuel
  induction fuel with
  | zero =>
    intro i size tr h p s hps
    rcases h with h | h <;> simp [pci_epf_nvme_transfer] at h
  | succ n ih =>
    intro i size tr h p s hps
    cases size with
    | zero =>
      rcases h with h | h
      · simp only [pci_epf_nvme_transfer, XferResult.ok.injEq] at h
        subst h
        simp at hps
      · simp [pci_epf_nvme_transfer] at h
    | succ m =>
      simp only [pci_epf_nvme_transfer] at h
      by_cases hc : (env.dma_enable && decide (m + 1 > SZ_4K)) = true
      · rw [if_pos hc] at h
        simp only [Bool.and_eq_true, decide_eq_true_eq] at hc
        cases hdma : pci_epf_nvme_dma_transfer env i with
        | none =>
          simp only [hdma] at h
          rcases h with h | h
          · simp at h
          · simp only [XferResult.timedOut.injEq] at h
            subst h
            rcases List.mem_singleton.mp hps with hhd
            injection hhd with hp hs
            subst hp
            subst hs
            simp [hc]
        | some ret =>
          simp only [hdma] at h
          cases hrec : pci_epf_nvme_transfer env n (i + 1) (m + 1 - ret) with
          | ok tr2 =>
            simp only [hrec] at h
            rcases h with h | h
            · simp only [XferResult.ok.injEq] at h
              subst h
              rcases List.mem_cons.mp hps with hhd | htl
              · injection hhd with hp hs
                subst hp
                subst hs
                simp [hc]
              · exact ih (i + 1) (m + 1 - ret) tr2 (Or.inl hrec) p s htl
            · simp at h
          | timedOut tr2 =>
            simp only [hrec] at h
            rcases h with h | h
            · simp at h
            · simp only [XferResult.timedOut.injEq] at h
              subst h
              rcases List.mem_cons.mp hps with hhd | htl
              · injection hhd with hp hs
                subst hp
                subst hs
                simp [hc]
              · exact ih (i + 1) (m + 1 - ret) tr2 (Or.inr hrec) p s htl
          | outOfFuel =>
            simp only [hrec] at h
            rcases h with h | h <;> simp at h
      · rw [if_neg hc] at h
        have hc2 : ¬(env.dma_enable = true ∧ m + 1 > SZ_4K) := by
          simpa [Bool.and_eq_true, decide_eq_true_eq] using hc
        cases hrec : pci_epf_nvme_transfer env n (i + 1)
            (m + 1 - env.granted i) with
        | ok tr2 =>
          simp only [hrec] at h
          rcases h with h | h
          · simp only [XferResult.ok.injEq] at h
            subst h
            rcases List.mem_cons.mp hps with hhd | htl
            · injection hhd with hp hs
              subst hp
              subst hs
              constructor
              · intro hx
                exact XferPath.noConfusion hx
              · intro hx
                exact absurd hx hc2
            · exact ih (i + 1) (m + 1 - env.granted i) tr2 (Or.inl hrec) p s htl
          · simp at h
        | timedOut tr2 =>
          simp only [hrec] at h
          rcases h with h | h
          · simp at h
          · simp only [XferResult.timedOut.injEq] at h
            subst h
            rcases List.mem_cons.mp hps with hhd | htl
            · injection hhd with hp hs
              subst hp
              subst hs
              constructor
              · intro hx
                exact XferPath.noConfusion hx
              · intro hx
                exact absurd hx hc2
            · exact ih (i + 1) (m + 1 - env.granted i) tr2 (Or.inr hrec) p s htl
        | outOfFuel =>
          simp only [hrec] at h
          rcases h with h | h <;> simp at h

/-- A transfer can only end in `timedOut` when some bulk copy failed to
complete within the `DMA_TIMEOUT_MSECS` wait. -/
theorem transfer_timeout_cause (env : XferEnv) :
    ∀ fuel i size tr, pci_epf_nvme_transfer env fuel i size = .timedOut tr →
      ∃ j, env.wait_within_ms DMA_TIMEOUT_MSECS j = false := by
  intro fuel
  induction fuel with
  | zero =>
    intro i size tr h
    simp [pci_epf_nvme_transfer] at h
  | succ n ih =>
    intro i size tr h
    cases size with
    | zero => simp [pci_epf_nvme_transfer] at h
    | succ m =>
      simp only [pci_epf_nvme_transfer] at h
      by_cases hc : (env.dma_enable && decide (m + 1 > SZ_4K)) = true
      · rw [if_pos hc] at h
        cases hdma : pci_epf_nvme_dma_transfer env i with
        | none =>
          refine ⟨i, ?_⟩
          by_contra hw
          simp only [Bool.not_eq_false] at hw
          simp [pci_epf_nvme_dma_transfer, hw] at hdma
        | some ret =>
          simp only [hdma] at h
          cases hrec : pci_epf_nvme_transfer env n (i + 1) (m + 1 - ret) with
          | ok tr2 => simp [hrec] at h
          | timedOut tr2 => exact ih (i + 1) (m + 1 - ret) tr2 hrec
          | outOfFuel => simp [hrec] at h
      · rw [if_neg hc] at h
        cases hrec : pci_epf_nvme_transfer env n (i + 1)
            (m + 1 - env.granted i) with
        | ok tr2 => simp [hrec] at h
        | timedOut tr2 => exact ih (i + 1) (m + 1 - env.granted i) tr2 hrec
        | outOfFuel => simp [hrec] at h

/-- C10: per loop iteration of the transfer engine the bulk DMA path is
chosen exactly when DMA is enabled and the remaining size exceeds 4 KiB
(first conjunct, over every entry of the iteration trace); a `timedOut`
failure can only stem from a bulk copy missing the `DMA_TIMEOUT_MSECS`
(1000 ms) completion wait (second conjunct); and if the bulk path is chosen
and the wait fails, the in-flight copy is terminated and the whole call
fails with the timeout — no further iterations run (third conjunct). -/
theorem transfer_path_choice_and_timeout :
    (∀ env fuel i size tr,
       (pci_epf_nvme_transfer env fuel i size = .ok tr ∨
        pci_epf_nvme_transfer env fuel i size = .timedOut tr) →
       ∀ p s, (p, s) ∈ tr →
         (p = XferPath.dma ↔ (env.dma_enable = true ∧ s > SZ_4K))) ∧
    (∀ env fuel i size tr,
       pci_epf_nvme_transfer env fuel i size = .timedOut tr →
       ∃ j, env.wait_within_ms DMA_TIMEOUT_MSECS j = false) ∧
    (∀ env fuel i size, env.dma_enable = true → size > SZ_4K →
       env.wait_within_ms DMA_TIMEOUT_MSECS i = false →
       pci_epf_nvme_transfer env (fuel + 1) i size =
         .timedOut [(XferPath.dma, size)]) := by
  refine ⟨fun env => transfer_trace_path env,
    fun env => transfer_timeout_cause env, ?_⟩
  intro env fuel i size hen hsz hw
  obtain ⟨m, rfl⟩ : ∃ m, size = m + 1 := ⟨size - 1, by omega⟩
  simp only [pci_epf_nvme_transfer]
  rw [if_pos (by simp [hen]; omega)]
  simp [pci_epf_nvme_dma_transfer, hw]

/-- Closed instance: with DMA enabled and a bulk copy that never completes
in time, an 8 KiB transfer chooses the bulk path and fails with the
timeout immediately. -/
theorem transfer_path_choice_and_timeout_witness :
    pci_epf_nvme_transfer xferEnvTimeout 1 0 8192 =
      .timedOut [(XferPath.dma, 8192)] :=
  transfer_path_choice_and_timeout.2.2 xferEnvTimeout 0 0 8192 rfl
    (by decide) rfl

end EpfNvme
